import Mathlib

/-!
Verification of the StarStream ledger/shop core (database.py and the
ledger-touching command flows of bot.py).

The persistent SQLite store is modelled as an explicit state:
the `users` table is an association list `List (Nat × Int)` (user_id,
balance) and the `shop_items` table is a `List ShopItem` together with
the autoincrement counter `next_item_id`.  Every operation of
`database.py` becomes a state-passing Lean function with the same name,
and the relevant command flows of `bot.py` (`confiscate`, `shop_buy`)
become functions parameterised by the outcomes of the external
(Discord) collaborators.

Commit discipline: each operation runs on its own connection, and a
statement's effect persists only if that connection commits.  Every
writing operation of `database.py` ends with `db.commit()` — except
`get_balance`, which never commits: its bootstrap INSERT from
`_get_or_create_user` is visible to the SELECT on the same connection
but is rolled back when the `async with aiosqlite.connect(...)` block
closes the connection.  So `get_balance` returns a value and leaves the
persistent store unchanged, and in `transfer_coins` an absent sender
has no row when the (committed) UPDATE legs run, making the sender
debit a silent no-op.
-/

set_option autoImplicit false

namespace StarStream

/-- A row of the `shop_items` table, as created by `init_db` in
database.py: `image_url` is nullable and `purchased_by_user_id` is
nullable (`none` models SQL NULL). -/
structure ShopItem where
  item_id : Nat
  guild_id : Nat
  name : String
  cost : Int
  role_id : Nat
  image_url : Option String
  is_one_time_buy : Bool
  purchased_by_user_id : Option Nat
deriving Repr, DecidableEq

/-- The persistent store: the `users` table (association list of
user_id, balance), the `shop_items` table and its autoincrement
counter. -/
structure DB where
  users : List (Nat × Int)
  items : List ShopItem
  next_item_id : Nat
deriving Repr, DecidableEq

/-- `SELECT 1 FROM users WHERE user_id = ?` returning a row. -/
def usersHas (l : List (Nat × Int)) (u : Nat) : Bool :=
  l.any (fun p => p.1 == u)

/-- `_get_or_create_user` from database.py: insert `(u, 0)` when no row
with `user_id = u` exists. -/
def getOrCreateUser (l : List (Nat × Int)) (u : Nat) : List (Nat × Int) :=
  if usersHas l u then l else l ++ [(u, 0)]

/-- `SELECT balance FROM users WHERE user_id = ?` (first matching row). -/
def selectBalance (l : List (Nat × Int)) (u : Nat) : Option Int :=
  (l.find? (fun p => p.1 == u)).map Prod.snd

/-- `UPDATE users SET balance = balance + ? WHERE user_id = ?`. -/
def updateBalance (l : List (Nat × Int)) (u : Nat) (d : Int) : List (Nat × Int) :=
  l.map (fun p => if p.1 == u then (p.1, p.2 + d) else p)

/-- The balance the store reads for `u` (`0` when the row is absent),
matching `result[0] if result else 0` in `get_balance`. -/
def balanceOf (l : List (Nat × Int)) (u : Nat) : Int :=
  ((l.find? (fun p => p.1 == u)).map Prod.snd).getD 0

/-- Number of rows of the users table holding `u` (the `user_id`
PRIMARY KEY guarantees this is at most 1 in SQL). -/
def keyCount (l : List (Nat × Int)) (u : Nat) : Nat :=
  (l.filter (fun p => p.1 == u)).length

/-- Sum of all balances in the users table. -/
def totalBalance (l : List (Nat × Int)) : Int :=
  (l.map Prod.snd).sum

/-- `get_balance` from database.py: bootstrap the row if absent, then
read the balance.  The bootstrap INSERT is visible to the SELECT on the
same connection, but `get_balance` is the one function of database.py
that never calls `db.commit()`, so the implicit transaction is rolled
back when its connection closes: only the read value escapes and the
persistent store is unchanged. -/
def get_balance (s : DB) (u : Nat) : Int × DB :=
  let l := getOrCreateUser s.users u
  ((selectBalance l u).getD 0, s)

/-- `add_coins` from database.py: bootstrap the row if absent, then
`balance += amount`. -/
def add_coins (s : DB) (u : Nat) (amount : Int) : DB :=
  let l := getOrCreateUser s.users u
  { s with users := updateBalance l u amount }

/-- `transfer_coins` from database.py: read the sender balance through
`get_balance` (whose bootstrap of the sender is rolled back, not
persisted), fail when it is below `amount`, otherwise — on its own
committed connection — bootstrap the recipient, debit the sender (a
no-op when the sender has no row) and credit the recipient. -/
def transfer_coins (s : DB) (sender recipient : Nat) (amount : Int) : Bool × DB :=
  let r := get_balance s sender
  if r.1 < amount then (false, r.2)
  else
    let l := getOrCreateUser r.2.users recipient
    let l := updateBalance l sender (-amount)
    let l := updateBalance l recipient amount
    (true, { r.2 with users := l })

/-- The `UNIQUE(guild_id, name)` constraint check: does a row with this
guild and name exist (the condition under which the INSERT in
`add_shop_item` raises `IntegrityError`). -/
def hasItem (items : List ShopItem) (g : Nat) (n : String) : Bool :=
  items.any (fun it => it.guild_id == g && it.name == n)

/-- `add_shop_item` from database.py: INSERT a fresh row (autoincrement
id, `purchased_by_user_id` NULL); the UNIQUE constraint violation is
caught and turned into `false` with no row created. -/
def add_shop_item (s : DB) (g : Nat) (n : String) (cost : Int) (role : Nat)
    (img : Option String) (oneTime : Bool) : Bool × DB :=
  if hasItem s.items g n then (false, s)
  else
    (true,
      { s with
        items := s.items ++
          [{ item_id := s.next_item_id, guild_id := g, name := n, cost := cost,
             role_id := role, image_url := img, is_one_time_buy := oneTime,
             purchased_by_user_id := none }],
        next_item_id := s.next_item_id + 1 })

/-- `get_shop_item` from database.py:
`SELECT * FROM shop_items WHERE guild_id = ? AND name = ?`. -/
def get_shop_item (s : DB) (g : Nat) (n : String) : Option ShopItem :=
  s.items.find? (fun it => it.guild_id == g && it.name == n)

/-- The UPDATE of `mark_item_as_purchased`:
`UPDATE shop_items SET purchased_by_user_id = ? WHERE item_id = ?`. -/
def markItems (items : List ShopItem) (itemId userId : Nat) : List ShopItem :=
  items.map (fun it =>
    if it.item_id == itemId then { it with purchased_by_user_id := some userId } else it)

/-- `mark_item_as_purchased` from database.py. -/
def mark_item_as_purchased (s : DB) (itemId userId : Nat) : DB :=
  { s with items := markItems s.items itemId userId }

/-- Python truthiness of the nullable `purchased_by_user_id` column as
used by `if item['is_one_time_buy'] and item['purchased_by_user_id']:` in
bot.py: `None` and the integer `0` are both falsy. -/
def optTruthy (o : Option Nat) : Bool :=
  match o with
  | none => false
  | some v => v != 0

/-- Outcomes of the external (Discord) collaborators consulted by
`shop_buy` in bot.py: whether the reward role still exists, whether the
buyer already has it, whether the bot may and can grant it, and whether
the `add_roles` grant call succeeds (raises no exception). -/
structure BuyEnv where
  role_exists : Bool
  user_has_role : Bool
  can_manage_roles : Bool
  role_position_ok : Bool
  grant_ok : Bool
deriving Repr, DecidableEq

/-- The distinguishable results of the `shop_buy` flow in bot.py, one per
`ctx.respond` branch reachable inside a guild. -/
inductive BuyOutcome where
  | itemNotFound
  | alreadyClaimed
  | insufficientFunds
  | roleFaded
  | alreadyHasRole
  | noManagePermission
  | roleTooHigh
  | success
  | grantFailedRefunded
deriving Repr, DecidableEq

/-- The `shop_buy` command flow from bot.py (the in-guild path): item
lookup, the already-claimed truthiness check, balance read (which
bootstraps the buyer's row), affordability check, the four role checks,
then the transaction: debit, external grant, and — only for one-time-buy
items — `mark_item_as_purchased`; a failing grant raises, is caught, and
the catch-all handler re-credits the debited cost. -/
def shop_buy (s : DB) (env : BuyEnv) (g : Nat) (n : String) (buyer : Nat) :
    BuyOutcome × DB :=
  match get_shop_item s g n with
  | none => (.itemNotFound, s)
  | some item =>
    if item.is_one_time_buy && optTruthy item.purchased_by_user_id then
      (.alreadyClaimed, s)
    else
      let r := get_balance s buyer
      if r.1 < item.cost then (.insufficientFunds, r.2)
      else if !env.role_exists then (.roleFaded, r.2)
      else if env.user_has_role then (.alreadyHasRole, r.2)
      else if !env.can_manage_roles then (.noManagePermission, r.2)
      else if !env.role_position_ok then (.roleTooHigh, r.2)
      else
        let s2 := add_coins r.2 buyer (-item.cost)
        if env.grant_ok then
          (.success,
            if item.is_one_time_buy then mark_item_as_purchased s2 item.item_id buyer
            else s2)
        else
          (.grantFailedRefunded, add_coins s2 buyer item.cost)

/-- An external environment in which every Discord-side check passes and
the reward grant succeeds. -/
def envAll : BuyEnv :=
  { role_exists := true, user_has_role := false, can_manage_roles := true,
    role_position_ok := true, grant_ok := true }

/-- An external environment in which every Discord-side check passes but
the reward grant call raises. -/
def envGrantFail : BuyEnv :=
  { role_exists := true, user_has_role := false, can_manage_roles := true,
    role_position_ok := true, grant_ok := false }

/-- The `confiscate` command flow from bot.py: reject non-positive
amounts, read the current balance (bootstrapping the row), cap the
debit at the current balance, and apply it through `add_coins`. -/
def confiscate (s : DB) (recipient : Nat) (amount : Int) : DB :=
  if amount ≤ 0 then s
  else
    let r := get_balance s recipient
    let amount_to_remove := min amount r.1
    add_coins r.2 recipient (-amount_to_remove)

/-! ### Basic lemmas about the users table -/

theorem usersHas_nil (u : Nat) : usersHas [] u = false := rfl

theorem usersHas_cons (a : Nat) (b : Int) (t : List (Nat × Int)) (u : Nat) :
    usersHas ((a, b) :: t) u = ((a == u) || usersHas t u) := by
  simp [usersHas]

theorem balanceOf_nil (u : Nat) : balanceOf [] u = 0 := rfl

theorem balanceOf_cons (a : Nat) (b : Int) (t : List (Nat × Int)) (u : Nat) :
    balanceOf ((a, b) :: t) u = if a == u then b else balanceOf t u := by
  by_cases h : (a == u) = true
  · simp [balanceOf, List.find?_cons_of_pos, h]
  · simp only [balanceOf, List.find?]
    rw [if_neg (by simpa using h)]
    simp [List.find?, h]

theorem updateBalance_nil (u : Nat) (d : Int) : updateBalance [] u d = [] := rfl

theorem updateBalance_cons (a : Nat) (b : Int) (t : List (Nat × Int)) (u : Nat) (d : Int) :
    updateBalance ((a, b) :: t) u d =
      (if a == u then (a, b + d) else (a, b)) :: updateBalance t u d := rfl

theorem keyCount_nil (u : Nat) : keyCount [] u = 0 := rfl

theorem keyCount_cons (a : Nat) (b : Int) (t : List (Nat × Int)) (u : Nat) :
    keyCount ((a, b) :: t) u = (if a == u then 1 else 0) + keyCount t u := by
  by_cases h : (a == u) = true
  · simp [keyCount, List.filter, h]
    omega
  · simp [keyCount, List.filter, h]

theorem totalBalance_nil : totalBalance [] = 0 := rfl

theorem totalBalance_cons (a : Nat) (b : Int) (t : List (Nat × Int)) :
    totalBalance ((a, b) :: t) = b + totalBalance t := by
  simp [totalBalance]

theorem totalBalance_append (l₁ l₂ : List (Nat × Int)) :
    totalBalance (l₁ ++ l₂) = totalBalance l₁ + totalBalance l₂ := by
  simp [totalBalance]

theorem usersHas_iff_mem {l : List (Nat × Int)} {u : Nat} :
    usersHas l u = true ↔ u ∈ l.map Prod.fst := by
  induction l with
  | nil => simp [usersHas]
  | cons p t ih =>
    obtain ⟨a, b⟩ := p
    rw [usersHas_cons, List.map_cons, List.mem_cons, Bool.or_eq_true_iff, ih]
    constructor
    · rintro (h1 | h2)
      · exact Or.inl (eq_of_beq h1).symm
      · exact Or.inr h2
    · rintro (h1 | h2)
      · exact Or.inl (by simp [h1])
      · exact Or.inr h2

theorem balanceOf_eq_zero_of_hasFalse {l : List (Nat × Int)} {u : Nat}
    (h : usersHas l u = false) : balanceOf l u = 0 := by
  induction l with
  | nil => rfl
  | cons p t ih =>
    obtain ⟨a, b⟩ := p
    rw [usersHas_cons] at h
    rw [balanceOf_cons]
    rcases Bool.or_eq_false_iff.mp h with ⟨h1, h2⟩
    rw [if_neg (by simp [h1])]
    exact ih h2

theorem keyCount_eq_zero_of_hasFalse {l : List (Nat × Int)} {u : Nat}
    (h : usersHas l u = false) : keyCount l u = 0 := by
  induction l with
  | nil => rfl
  | cons p t ih =>
    obtain ⟨a, b⟩ := p
    rw [usersHas_cons] at h
    rw [keyCount_cons]
    rcases Bool.or_eq_false_iff.mp h with ⟨h1, h2⟩
    rw [if_neg (by simp [h1])]
    simpa using ih h2

theorem keyCount_eq_one_of_nodup {l : List (Nat × Int)} {u : Nat}
    (hn : (l.map Prod.fst).Nodup) (h : usersHas l u = true) : keyCount l u = 1 := by
  induction l with
  | nil => simp [usersHas] at h
  | cons p t ih =>
    obtain ⟨a, b⟩ := p
    rw [List.map_cons, List.nodup_cons] at hn
    rw [usersHas_cons] at h
    rw [keyCount_cons]
    by_cases hau : a = u
    · subst hau
      have : usersHas t a = false := by
        by_contra hc
        exact hn.1 (usersHas_iff_mem.mp (by simpa using hc))
      simp [keyCount_eq_zero_of_hasFalse this]
    · rw [if_neg (by simp [hau])]
      rcases Bool.or_eq_true_iff.mp h with h1 | h2
      · exact absurd (by simpa using h1) hau
      · simpa using ih hn.2 h2

/-! ### Lemmas about `getOrCreateUser` and `updateBalance` -/

theorem balanceOf_append_single_other {l : List (Nat × Int)} {u w : Nat} {b : Int}
    (h : w ≠ u) : balanceOf (l ++ [(u, b)]) w = balanceOf l w := by
  induction l with
  | nil =>
    rw [List.nil_append, balanceOf_cons, if_neg (fun e => h (eq_of_beq e).symm)]
  | cons p t ih =>
    obtain ⟨a, c⟩ := p
    rw [List.cons_append, balanceOf_cons, balanceOf_cons, ih]

theorem balanceOf_append_single_self {l : List (Nat × Int)} {u : Nat} {b : Int}
    (h : usersHas l u = false) : balanceOf (l ++ [(u, b)]) u = b := by
  induction l with
  | nil =>
    rw [List.nil_append, balanceOf_cons, if_pos (beq_self_eq_true u)]
  | cons p t ih =>
    obtain ⟨a, c⟩ := p
    rw [usersHas_cons] at h
    rcases Bool.or_eq_false_iff.mp h with ⟨h1, h2⟩
    rw [List.cons_append, balanceOf_cons, if_neg (by simp [h1]), ih h2]

theorem balanceOf_getOrCreateUser (l : List (Nat × Int)) (u w : Nat) :
    balanceOf (getOrCreateUser l u) w = balanceOf l w := by
  unfold getOrCreateUser
  by_cases h : usersHas l u = true
  · rw [if_pos h]
  · rw [if_neg h]
    have hf : usersHas l u = false := by simpa using h
    by_cases hw : w = u
    · subst hw
      rw [balanceOf_append_single_self hf, balanceOf_eq_zero_of_hasFalse hf]
    · exact balanceOf_append_single_other hw

theorem usersHas_append_single_self (l : List (Nat × Int)) (u : Nat) (b : Int) :
    usersHas (l ++ [(u, b)]) u = true := by
  simp [usersHas]

theorem usersHas_getOrCreateUser_self (l : List (Nat × Int)) (u : Nat) :
    usersHas (getOrCreateUser l u) u = true := by
  unfold getOrCreateUser
  by_cases h : usersHas l u = true
  · rw [if_pos h]; exact h
  · rw [if_neg h]; exact usersHas_append_single_self l u 0

theorem usersHas_getOrCreateUser_mono {l : List (Nat × Int)} {u : Nat} (v : Nat)
    (h : usersHas l u = true) : usersHas (getOrCreateUser l v) u = true := by
  unfold getOrCreateUser
  by_cases hv : usersHas l v = true
  · rw [if_pos hv]; exact h
  · rw [if_neg hv]
    rcases List.any_eq_true.mp h with ⟨p, hp, hpu⟩
    exact List.any_eq_true.mpr ⟨p, List.mem_append_left _ hp, hpu⟩

theorem balanceOf_updateBalance_self {l : List (Nat × Int)} {u : Nat} (d : Int)
    (h : usersHas l u = true) :
    balanceOf (updateBalance l u d) u = balanceOf l u + d := by
  induction l with
  | nil => simp [usersHas] at h
  | cons p t ih =>
    obtain ⟨a, b⟩ := p
    rw [updateBalance_cons]
    by_cases hau : (a == u) = true
    · rw [if_pos hau, balanceOf_cons, if_pos hau, balanceOf_cons, if_pos hau]
    · rw [if_neg hau, balanceOf_cons, if_neg hau, balanceOf_cons, if_neg hau]
      rw [usersHas_cons, Bool.or_eq_true_iff] at h
      rcases h with h1 | h2
      · exact absurd h1 hau
      · exact ih h2

theorem balanceOf_updateBalance_other {l : List (Nat × Int)} {u w : Nat} (d : Int)
    (h : w ≠ u) : balanceOf (updateBalance l u d) w = balanceOf l w := by
  induction l with
  | nil => rfl
  | cons p t ih =>
    obtain ⟨a, b⟩ := p
    rw [updateBalance_cons]
    by_cases hau : (a == u) = true
    · rw [if_pos hau, balanceOf_cons, balanceOf_cons]
      have haw : ¬((a == w) = true) :=
        fun e => h ((eq_of_beq e).symm.trans (eq_of_beq hau))
      rw [if_neg haw, if_neg haw, ih]
    · rw [if_neg hau, balanceOf_cons, balanceOf_cons, ih]

theorem map_fst_updateBalance (l : List (Nat × Int)) (u : Nat) (d : Int) :
    (updateBalance l u d).map Prod.fst = l.map Prod.fst := by
  induction l with
  | nil => rfl
  | cons p t ih =>
    obtain ⟨a, b⟩ := p
    rw [updateBalance_cons]
    by_cases hau : (a == u) = true
    · rw [if_pos hau, List.map_cons, List.map_cons, ih]
    · rw [if_neg hau, List.map_cons, List.map_cons, ih]

theorem keyCount_updateBalance (l : List (Nat × Int)) (u : Nat) (d : Int) (w : Nat) :
    keyCount (updateBalance l u d) w = keyCount l w := by
  induction l with
  | nil => rfl
  | cons p t ih =>
    obtain ⟨a, b⟩ := p
    rw [updateBalance_cons]
    by_cases hau : (a == u) = true
    · rw [if_pos hau, keyCount_cons, keyCount_cons, ih]
    · rw [if_neg hau, keyCount_cons, keyCount_cons, ih]

theorem usersHas_updateBalance (l : List (Nat × Int)) (u : Nat) (d : Int) (w : Nat) :
    usersHas (updateBalance l u d) w = usersHas l w := by
  induction l with
  | nil => rfl
  | cons p t ih =>
    obtain ⟨a, b⟩ := p
    rw [updateBalance_cons]
    by_cases hau : (a == u) = true
    · rw [if_pos hau, usersHas_cons, usersHas_cons, ih]
    · rw [if_neg hau, usersHas_cons, usersHas_cons, ih]

theorem totalBalance_updateBalance (l : List (Nat × Int)) (u : Nat) (d : Int) :
    totalBalance (updateBalance l u d) = totalBalance l + (keyCount l u : Int) * d := by
  induction l with
  | nil => simp [totalBalance, keyCount, updateBalance]
  | cons p t ih =>
    obtain ⟨a, b⟩ := p
    rw [updateBalance_cons, keyCount_cons]
    by_cases hau : (a == u) = true
    · rw [if_pos hau, if_pos hau, totalBalance_cons, totalBalance_cons, ih]
      push_cast
      ring
    · rw [if_neg hau, if_neg hau, totalBalance_cons, totalBalance_cons, ih]
      push_cast
      ring

theorem totalBalance_getOrCreateUser (l : List (Nat × Int)) (u : Nat) :
    totalBalance (getOrCreateUser l u) = totalBalance l := by
  unfold getOrCreateUser
  by_cases h : usersHas l u = true
  · rw [if_pos h]
  · rw [if_neg h, totalBalance_append, totalBalance_cons, totalBalance_nil]
    ring

theorem map_fst_getOrCreateUser (l : List (Nat × Int)) (u : Nat) :
    (getOrCreateUser l u).map Prod.fst =
      if usersHas l u then l.map Prod.fst else l.map Prod.fst ++ [u] := by
  unfold getOrCreateUser
  by_cases h : usersHas l u = true
  · rw [if_pos h, if_pos h]
  · rw [if_neg h, if_neg h, List.map_append, List.map_cons]
    rfl

theorem nodup_fst_getOrCreateUser {l : List (Nat × Int)} (u : Nat)
    (hn : (l.map Prod.fst).Nodup) : ((getOrCreateUser l u).map Prod.fst).Nodup := by
  rw [map_fst_getOrCreateUser]
  by_cases h : usersHas l u = true
  · rw [if_pos h]; exact hn
  · rw [if_neg h]
    have hf : usersHas l u = false := by simpa using h
    refine List.Nodup.append hn (List.nodup_singleton u) ?_
    intro x hx hx'
    rcases List.mem_singleton.mp hx' with rfl
    exact absurd (usersHas_iff_mem.mpr hx) (by simp [hf])

theorem keyCount_getOrCreateUser_self {l : List (Nat × Int)} {u : Nat}
    (h : usersHas l u = false) : keyCount (getOrCreateUser l u) u = 1 := by
  unfold getOrCreateUser
  rw [if_neg (by simp [h])]
  have : keyCount (l ++ [(u, 0)]) u = keyCount l u + keyCount [(u, 0)] u := by
    simp [keyCount, List.filter_append]
  rw [this, keyCount_eq_zero_of_hasFalse h]
  simp [keyCount, List.filter]

/-! ### Derived facts about `get_balance` and `add_coins` -/

theorem get_balance_fst (s : DB) (u : Nat) : (get_balance s u).1 = balanceOf s.users u := by
  show balanceOf (getOrCreateUser s.users u) u = balanceOf s.users u
  exact balanceOf_getOrCreateUser s.users u u

theorem get_balance_snd (s : DB) (u : Nat) : (get_balance s u).2 = s := rfl

theorem get_balance_items (s : DB) (u : Nat) : (get_balance s u).2.items = s.items := rfl

theorem usersHas_of_balanceOf_ne_zero {l : List (Nat × Int)} {u : Nat}
    (h : balanceOf l u ≠ 0) : usersHas l u = true := by
  by_contra hc
  exact h (balanceOf_eq_zero_of_hasFalse (by simpa using hc))

theorem add_coins_items (s : DB) (u : Nat) (a : Int) : (add_coins s u a).items = s.items := rfl

theorem balanceOf_add_coins_self (s : DB) (u : Nat) (a : Int) :
    balanceOf (add_coins s u a).users u = balanceOf s.users u + a := by
  show balanceOf (updateBalance (getOrCreateUser s.users u) u a) u = _
  rw [balanceOf_updateBalance_self a (usersHas_getOrCreateUser_self s.users u),
    balanceOf_getOrCreateUser]

theorem balanceOf_add_coins_other {w u : Nat} (s : DB) (a : Int) (h : w ≠ u) :
    balanceOf (add_coins s u a).users w = balanceOf s.users w := by
  show balanceOf (updateBalance (getOrCreateUser s.users u) u a) w = _
  rw [balanceOf_updateBalance_other a h, balanceOf_getOrCreateUser]

theorem getOrCreateUser_of_has {l : List (Nat × Int)} {u : Nat}
    (h : usersHas l u = true) : getOrCreateUser l u = l := by
  unfold getOrCreateUser
  rw [if_pos h]

/-! ### Path equations for `transfer_coins` -/

theorem transfer_coins_fail_eq (s : DB) (a b : Nat) (n : Int)
    (h : balanceOf s.users a < n) :
    transfer_coins s a b n = (false, s) := by
  simp only [transfer_coins]
  rw [if_pos (by rw [get_balance_fst]; exact h)]
  rfl

theorem transfer_coins_fail_fst (s : DB) (a b : Nat) (n : Int)
    (h : balanceOf s.users a < n) : (transfer_coins s a b n).1 = false := by
  rw [transfer_coins_fail_eq s a b n h]

theorem transfer_coins_success_eq (s : DB) (a b : Nat) (n : Int)
    (h : ¬ balanceOf s.users a < n) :
    transfer_coins s a b n =
      (true, DB.mk
        (updateBalance (updateBalance (getOrCreateUser s.users b) a (-n)) b n)
        s.items s.next_item_id) := by
  simp only [transfer_coins]
  rw [if_neg (by rw [get_balance_fst]; exact h)]
  rfl

theorem transfer_coins_success_fst (s : DB) (a b : Nat) (n : Int)
    (h : ¬ balanceOf s.users a < n) : (transfer_coins s a b n).1 = true := by
  rw [transfer_coins_success_eq s a b n h]

theorem transfer_coins_success_users (s : DB) (a b : Nat) (n : Int)
    (h : ¬ balanceOf s.users a < n) :
    (transfer_coins s a b n).2.users =
      updateBalance (updateBalance (getOrCreateUser s.users b) a (-n)) b n := by
  rw [transfer_coins_success_eq s a b n h]

theorem DB_users_mk (x : List (Nat × Int)) (y : List ShopItem) (z : Nat) :
    (DB.mk x y z).users = x := rfl

theorem DB_items_mk (x : List (Nat × Int)) (y : List ShopItem) (z : Nat) :
    (DB.mk x y z).items = y := rfl

theorem mark_item_as_purchased_items (s : DB) (itemId userId : Nat) :
    (mark_item_as_purchased s itemId userId).items = markItems s.items itemId userId := rfl

/-! ### Path equations for `shop_buy` -/

theorem shop_buy_none_eq (s : DB) (env : BuyEnv) (g : Nat) (n : String) (u : Nat)
    (hit : get_shop_item s g n = none) :
    shop_buy s env g n u = (BuyOutcome.itemNotFound, s) := by
  simp only [shop_buy, hit]

theorem shop_buy_claimed_eq (s : DB) (env : BuyEnv) (g : Nat) (n : String) (u : Nat)
    (item : ShopItem) (hit : get_shop_item s g n = some item)
    (hb : (item.is_one_time_buy && optTruthy item.purchased_by_user_id) = true) :
    shop_buy s env g n u = (BuyOutcome.alreadyClaimed, s) := by
  simp only [shop_buy, hit]
  rw [if_pos hb]

theorem shop_buy_open_eq (s : DB) (env : BuyEnv) (g : Nat) (n : String) (u : Nat)
    (item : ShopItem) (hit : get_shop_item s g n = some item)
    (hb : (item.is_one_time_buy && optTruthy item.purchased_by_user_id) = false) :
    shop_buy s env g n u =
      (if balanceOf s.users u < item.cost then
        (BuyOutcome.insufficientFunds, s)
      else if !env.role_exists then
        (BuyOutcome.roleFaded, s)
      else if env.user_has_role then
        (BuyOutcome.alreadyHasRole, s)
      else if !env.can_manage_roles then
        (BuyOutcome.noManagePermission, s)
      else if !env.role_position_ok then
        (BuyOutcome.roleTooHigh, s)
      else if env.grant_ok then
        (BuyOutcome.success,
          if item.is_one_time_buy then
            mark_item_as_purchased (add_coins s u (-item.cost)) item.item_id u
          else
            add_coins s u (-item.cost))
      else
        (BuyOutcome.grantFailedRefunded,
          add_coins (add_coins s u (-item.cost)) u item.cost)) := by
  simp only [shop_buy, hit]
  rw [if_neg (by simp [hb])]
  rw [get_balance_fst]
  rfl

/-! ### Claim theorems -/

/-- Claim C1 (counterexample): the claim fails for a self-transfer.
`transfer_coins(1, 1, 5)` on a store where account 1 holds 5 succeeds,
yet the sender's balance does not decrease by 5 — it is unchanged. -/
theorem transfer_self_counterexample :
    (transfer_coins (DB.mk [(1, 5)] [] 0) 1 1 5).1 = true ∧
    balanceOf (transfer_coins (DB.mk [(1, 5)] [] 0) 1 1 5).2.users 1 = 5 ∧
    ¬ balanceOf (transfer_coins (DB.mk [(1, 5)] [] 0) 1 1 5).2.users 1 =
        balanceOf (DB.mk [(1, 5)] [] 0).users 1 - 5 := by
  decide

/-- Claim C1 (amended: sender and recipient distinct, and the amount
positive as the spec's caller-enforced precondition requires — for a
positive amount a successful check implies the sender's row exists, so
the committed sender debit matches it): a successful
`transfer_coins(a, b, n)` with `a ≠ b` and `0 < n` decreases the
sender's balance by exactly `n`, increases the recipient's balance by
exactly `n` (bootstrapping the recipient at 0 when absent), and
preserves the total balance summed over all accounts. -/
theorem transfer_conservation_distinct (s : DB) (a b : Nat) (n : Int)
    (hnd : (s.users.map Prod.fst).Nodup) (hab : a ≠ b) (hn : 0 < n)
    (hs : (transfer_coins s a b n).1 = true) :
    balanceOf (transfer_coins s a b n).2.users a = balanceOf s.users a - n ∧
    balanceOf (transfer_coins s a b n).2.users b = balanceOf s.users b + n ∧
    totalBalance (transfer_coins s a b n).2.users = totalBalance s.users := by
  by_cases hlt : balanceOf s.users a < n
  · rw [transfer_coins_fail_fst s a b n hlt] at hs
    cases hs
  · rw [transfer_coins_success_users s a b n hlt]
    have hap : usersHas s.users a = true :=
      usersHas_of_balanceOf_ne_zero (by omega)
    have ha : usersHas (getOrCreateUser s.users b) a = true :=
      usersHas_getOrCreateUser_mono b hap
    have hb : usersHas (getOrCreateUser s.users b) b = true :=
      usersHas_getOrCreateUser_self s.users b
    have hnd2 : ((getOrCreateUser s.users b).map Prod.fst).Nodup :=
      nodup_fst_getOrCreateUser b hnd
    refine ⟨?_, ?_, ?_⟩
    · rw [balanceOf_updateBalance_other n hab,
        balanceOf_updateBalance_self (-n) ha,
        balanceOf_getOrCreateUser]
      ring
    · rw [balanceOf_updateBalance_self n
        (by rw [usersHas_updateBalance]; exact hb),
        balanceOf_updateBalance_other (-n) (Ne.symm hab),
        balanceOf_getOrCreateUser]
    · rw [totalBalance_updateBalance, totalBalance_updateBalance,
        keyCount_updateBalance, keyCount_eq_one_of_nodup hnd2 ha,
        keyCount_eq_one_of_nodup hnd2 hb,
        totalBalance_getOrCreateUser]
      push_cast
      ring

/-- Claim C1 (witness): account 1 holds 100; `transfer_coins(1, 2, 50)`
decreases 1 to 50, bootstraps 2 at 0 and credits it to 50, preserving
the total. -/
theorem transfer_conservation_distinct_witness :
    balanceOf (transfer_coins (DB.mk [(1, 100)] [] 0) 1 2 50).2.users 1 =
        balanceOf (DB.mk [(1, 100)] [] 0).users 1 - 50 ∧
    balanceOf (transfer_coins (DB.mk [(1, 100)] [] 0) 1 2 50).2.users 2 =
        balanceOf (DB.mk [(1, 100)] [] 0).users 2 + 50 ∧
    totalBalance (transfer_coins (DB.mk [(1, 100)] [] 0) 1 2 50).2.users =
        totalBalance (DB.mk [(1, 100)] [] 0).users :=
  transfer_conservation_distinct (DB.mk [(1, 100)] [] 0) 1 2 50
    (by decide) (by decide) (by decide) (by decide)

/-- Claim C2: when the sender's balance is below the amount, the
transfer returns failure and performs no mutation at all — the store
(users and items alike) is exactly as before the call, since
`get_balance`'s bootstrap never commits and the UPDATE legs are never
reached. -/
theorem transfer_failure_preserves_balances (s : DB) (a b : Nat) (n : Int)
    (hlt : balanceOf s.users a < n) :
    (transfer_coins s a b n).1 = false ∧
    (transfer_coins s a b n).2 = s ∧
    ∀ w, balanceOf (transfer_coins s a b n).2.users w = balanceOf s.users w := by
  rw [transfer_coins_fail_eq s a b n hlt]
  exact ⟨rfl, rfl, fun w => rfl⟩

/-- Claim C2 (witness): the failing transfer `transfer_coins(7, 8, 5)`
on the empty store returns failure and leaves the store exactly
empty. -/
theorem transfer_failure_preserves_balances_witness :
    (transfer_coins (DB.mk [] [] 0) 7 8 5).1 = false ∧
    (transfer_coins (DB.mk [] [] 0) 7 8 5).2 = DB.mk [] [] 0 ∧
    balanceOf (transfer_coins (DB.mk [] [] 0) 7 8 5).2.users 7 =
      balanceOf (DB.mk [] [] 0).users 7 :=
  have h := transfer_failure_preserves_balances (DB.mk [] [] 0) 7 8 5 (by decide)
  ⟨h.1, h.2.1, h.2.2 7⟩

/-- Claim C5: for a positive requested amount `r`, the confiscation flow
debits exactly `min r balance` and the resulting balance is never
negative. -/
theorem confiscate_never_negative (s : DB) (u : Nat) (r : Int) (h : 0 < r) :
    balanceOf (confiscate s u r).users u =
      balanceOf s.users u - min r (balanceOf s.users u) ∧
    0 ≤ balanceOf (confiscate s u r).users u := by
  have hne : ¬ r ≤ 0 := not_le.mpr h
  have he : confiscate s u r =
      add_coins (get_balance s u).2 u (-(min r (get_balance s u).1)) := by
    simp only [confiscate]
    rw [if_neg hne]
  have hb : balanceOf (confiscate s u r).users u =
      balanceOf s.users u - min r (balanceOf s.users u) := by
    rw [he, balanceOf_add_coins_self, get_balance_snd, get_balance_fst]
    ring
  refine ⟨hb, ?_⟩
  rw [hb]
  rcases le_total r (balanceOf s.users u) with h1 | h1
  · rw [min_eq_left h1]
    omega
  · rw [min_eq_right h1]
    omega

/-- Claim C5 (witness): confiscating 25 from account 3 holding 10 debits
`min 25 10 = 10` and leaves a non-negative balance. -/
theorem confiscate_never_negative_witness :
    balanceOf (confiscate (DB.mk [(3, 10)] [] 0) 3 25).users 3 =
      balanceOf (DB.mk [(3, 10)] [] 0).users 3 -
        min 25 (balanceOf (DB.mk [(3, 10)] [] 0).users 3) ∧
    0 ≤ balanceOf (confiscate (DB.mk [(3, 10)] [] 0) 3 25).users 3 :=
  confiscate_never_negative (DB.mk [(3, 10)] [] 0) 3 25 (by decide)

/-- Claim C8 (code bug, evaluated at the failing input): reading the
balance of the absent user 5 on the empty store returns 0 but creates
no account record — the store is returned exactly unchanged and holds
no row for user 5, because `get_balance` (alone among the database.py
writers) never calls `db.commit()`, so its bootstrap INSERT is rolled
back when the connection closes.  The spec's documented side effect
("creates the account record with balance 0 if absent") is therefore
not implemented. -/
theorem get_balance_creates_no_record :
    get_balance (DB.mk [] [] 0) 5 = (0, DB.mk [] [] 0) ∧
    usersHas (get_balance (DB.mk [] [] 0) 5).2.users 5 = false ∧
    keyCount (get_balance (DB.mk [] [] 0) 5).2.users 5 = 0 ∧
    get_balance (get_balance (DB.mk [] [] 0) 5).2 5 =
      ((0 : Int), (get_balance (DB.mk [] [] 0) 5).2) := by
  decide

/-- Claim C10 (counterexample): for an absent sender the call does not
apply both legs.  Sender 1 has no row in `[(2, 10)]`; the read balance 0
passes the check for amount −5 and the call returns success, but the
committed sender-debit UPDATE matches no row (the bootstrap was rolled
back): only the recipient leg takes effect, leaving the sender at 0
instead of 0 − (−5) = 5 and destroying 5 coins. -/
theorem transfer_absent_sender_counterexample :
    usersHas (DB.mk [(2, 10)] [] 0).users 1 = false ∧
    ¬ balanceOf (DB.mk [(2, 10)] [] 0).users 1 < -5 ∧
    (transfer_coins (DB.mk [(2, 10)] [] 0) 1 2 (-5)).1 = true ∧
    (transfer_coins (DB.mk [(2, 10)] [] 0) 1 2 (-5)).2.users = [(2, 5)] ∧
    ¬ balanceOf (transfer_coins (DB.mk [(2, 10)] [] 0) 1 2 (-5)).2.users 1 =
        balanceOf (DB.mk [(2, 10)] [] 0).users 1 - (-5) := by
  decide

/-- Claim C10 (amended: the sender must have an existing row for the
sender leg to match): `transfer_coins` never validates its amount — for
a non-positive amount `n` not exceeding the balance of a sender whose
row exists, the call returns success and still applies both legs, so a
negative amount moves coins from the recipient to the sender.  For an
absent sender the call still succeeds but only the recipient leg has
effect. -/
theorem transfer_unvalidated_negative_amount (s : DB) (a b : Nat) (n : Int)
    (_hn : n ≤ 0) (hab : a ≠ b) (hpres : usersHas s.users a = true)
    (h : ¬ balanceOf s.users a < n) :
    (transfer_coins s a b n).1 = true ∧
    balanceOf (transfer_coins s a b n).2.users a = balanceOf s.users a - n ∧
    balanceOf (transfer_coins s a b n).2.users b = balanceOf s.users b + n := by
  rw [transfer_coins_success_users s a b n h]
  have ha : usersHas (getOrCreateUser s.users b) a = true :=
    usersHas_getOrCreateUser_mono b hpres
  have hb : usersHas (getOrCreateUser s.users b) b = true :=
    usersHas_getOrCreateUser_self s.users b
  refine ⟨transfer_coins_success_fst s a b n h, ?_, ?_⟩
  · rw [balanceOf_updateBalance_other n hab,
      balanceOf_updateBalance_self (-n) ha,
      balanceOf_getOrCreateUser]
    ring
  · rw [balanceOf_updateBalance_self n (by rw [usersHas_updateBalance]; exact hb),
      balanceOf_updateBalance_other (-n) (Ne.symm hab),
      balanceOf_getOrCreateUser]

/-- Claim C10 (witness): with account 1 present at 0 and account 2 at
10, `transfer_coins(1, 2, -5)` succeeds and moves 5 coins from 2 to
1. -/
theorem transfer_unvalidated_negative_amount_witness :
    (transfer_coins (DB.mk [(1, 0), (2, 10)] [] 0) 1 2 (-5)).1 = true ∧
    balanceOf (transfer_coins (DB.mk [(1, 0), (2, 10)] [] 0) 1 2 (-5)).2.users 1 =
        balanceOf (DB.mk [(1, 0), (2, 10)] [] 0).users 1 - (-5) ∧
    balanceOf (transfer_coins (DB.mk [(1, 0), (2, 10)] [] 0) 1 2 (-5)).2.users 2 =
        balanceOf (DB.mk [(1, 0), (2, 10)] [] 0).users 2 + (-5) :=
  transfer_unvalidated_negative_amount (DB.mk [(1, 0), (2, 10)] [] 0) 1 2 (-5)
    (by decide) (by decide) (by decide) (by decide)

/-- Claim C3 (counterexample): the already-claimed guard is a Python
truthiness test, so a unique item whose `purchased_by_user_id` is set to
the (falsy) user id 0 is not protected: starting from the empty store,
user 0 buys the unique item (so `purchasedBy` is set to `some 0`), yet a
subsequent purchase by user 1 succeeds and overwrites `purchasedBy`. -/
theorem unique_item_zero_claimer_counterexample :
    add_coins (shop_buy (add_coins (add_shop_item (DB.mk [] [] 0) 7 "Cloak" 5 99 none true).2
        0 10) envAll 7 "Cloak" 0).2 1 10 =
      DB.mk [(0, 5), (1, 10)] [ShopItem.mk 0 7 "Cloak" 5 99 none true (some 0)] 1 ∧
    (ShopItem.mk 0 7 "Cloak" 5 99 none true (some 0)).is_one_time_buy = true ∧
    (ShopItem.mk 0 7 "Cloak" 5 99 none true (some 0)).purchased_by_user_id.isSome = true ∧
    (shop_buy (DB.mk [(0, 5), (1, 10)] [ShopItem.mk 0 7 "Cloak" 5 99 none true (some 0)] 1)
        envAll 7 "Cloak" 1).1 = BuyOutcome.success ∧
    (shop_buy (DB.mk [(0, 5), (1, 10)] [ShopItem.mk 0 7 "Cloak" 5 99 none true (some 0)] 1)
        envAll 7 "Cloak" 1).2.items =
      [ShopItem.mk 0 7 "Cloak" 5 99 none true (some 1)] := by
  decide

/-- Claim C3 (amended: the claimed marker must be a non-zero user id,
since the guard is a truthiness test): every purchase of a unique item
whose `purchasedBy` is a non-zero user fails with `AlreadyClaimed` and
leaves the whole store unchanged; and whenever a purchase changes any
item state, it was a successful purchase of a unique item whose
`purchasedBy` was not truthy before, and the only change is setting that
item's `purchasedBy` to the buyer. -/
theorem unique_item_claim_protocol (s : DB) (env : BuyEnv) (g : Nat) (n : String) (u : Nat) :
    (∀ item, get_shop_item s g n = some item → item.is_one_time_buy = true →
      ∀ v, item.purchased_by_user_id = some v → v ≠ 0 →
        shop_buy s env g n u = (BuyOutcome.alreadyClaimed, s)) ∧
    ((shop_buy s env g n u).2.items ≠ s.items →
      (shop_buy s env g n u).1 = BuyOutcome.success ∧
      ∃ item, get_shop_item s g n = some item ∧ item.is_one_time_buy = true ∧
        optTruthy item.purchased_by_user_id = false ∧
        (shop_buy s env g n u).2.items = markItems s.items item.item_id u) := by
  constructor
  · intro item hit hu v hv hnz
    apply shop_buy_claimed_eq s env g n u item hit
    rw [hu, hv]
    simp [optTruthy, hnz]
  · intro hch
    cases hit : get_shop_item s g n with
    | none => exact absurd (by rw [shop_buy_none_eq s env g n u hit]) hch
    | some item =>
      by_cases hb : (item.is_one_time_buy && optTruthy item.purchased_by_user_id) = true
      · exact absurd (by rw [shop_buy_claimed_eq s env g n u item hit hb]) hch
      · have hb' : (item.is_one_time_buy && optTruthy item.purchased_by_user_id) = false := by
          simpa using hb
        rw [shop_buy_open_eq s env g n u item hit hb'] at hch ⊢
        by_cases h1 : balanceOf s.users u < item.cost
        · rw [if_pos h1] at hch
          exact absurd rfl hch
        · rw [if_neg h1] at hch ⊢
          by_cases h2 : (!env.role_exists) = true
          · rw [if_pos h2] at hch
            exact absurd rfl hch
          · rw [if_neg h2] at hch ⊢
            by_cases h3 : env.user_has_role = true
            · rw [if_pos h3] at hch
              exact absurd rfl hch
            · rw [if_neg h3] at hch ⊢
              by_cases h4 : (!env.can_manage_roles) = true
              · rw [if_pos h4] at hch
                exact absurd rfl hch
              · rw [if_neg h4] at hch ⊢
                by_cases h5 : (!env.role_position_ok) = true
                · rw [if_pos h5] at hch
                  exact absurd rfl hch
                · rw [if_neg h5] at hch ⊢
                  by_cases h6 : env.grant_ok = true
                  · rw [if_pos h6] at hch ⊢
                    by_cases h7 : item.is_one_time_buy = true
                    · rw [if_pos h7] at hch ⊢
                      have hb2 : optTruthy item.purchased_by_user_id = false := by
                        rw [h7] at hb'
                        simpa using hb'
                      refine ⟨rfl, item, rfl, h7, hb2, ?_⟩
                      rw [mark_item_as_purchased_items, add_coins_items]
                    · rw [if_neg h7] at hch
                      exact absurd rfl hch
                  · rw [if_neg h6] at hch
                    exact absurd rfl hch

/-- Claim C3 (witness): a unique item claimed by user 2 (non-zero):
any further purchase of it fails with `AlreadyClaimed` and leaves the
store untouched. -/
theorem unique_item_claim_protocol_witness :
    shop_buy (DB.mk [] [ShopItem.mk 0 4 "Crown" 30 9 none true (some 2)] 1)
        envAll 4 "Crown" 5 =
      (BuyOutcome.alreadyClaimed,
        DB.mk [] [ShopItem.mk 0 4 "Crown" 30 9 none true (some 2)] 1) :=
  (unique_item_claim_protocol (DB.mk [] [ShopItem.mk 0 4 "Crown" 30 9 none true (some 2)] 1)
      envAll 4 "Crown" 5).1
    (ShopItem.mk 0 4 "Crown" 30 9 none true (some 2)) (by decide) rfl 2 rfl (by decide)

/-- Claim C4: whenever the purchase flow ends in the refunded-failure
outcome (the grant raised after the debit committed), every account's
balance — in particular the buyer's — equals its value before the
attempt, and the item table (hence every `purchasedBy` field) is exactly
as before. -/
theorem purchase_refund_exact (s : DB) (env : BuyEnv) (g : Nat) (n : String) (u : Nat)
    (h : (shop_buy s env g n u).1 = BuyOutcome.grantFailedRefunded) :
    (∀ w, balanceOf (shop_buy s env g n u).2.users w = balanceOf s.users w) ∧
    (shop_buy s env g n u).2.items = s.items := by
  cases hit : get_shop_item s g n with
  | none =>
    rw [shop_buy_none_eq s env g n u hit] at h
    cases h
  | some item =>
    by_cases hb : (item.is_one_time_buy && optTruthy item.purchased_by_user_id) = true
    · rw [shop_buy_claimed_eq s env g n u item hit hb] at h
      cases h
    · have hb' : (item.is_one_time_buy && optTruthy item.purchased_by_user_id) = false := by
        simpa using hb
      rw [shop_buy_open_eq s env g n u item hit hb'] at h ⊢
      by_cases h1 : balanceOf s.users u < item.cost
      · rw [if_pos h1] at h
        cases h
      · rw [if_neg h1] at h ⊢
        by_cases h2 : (!env.role_exists) = true
        · rw [if_pos h2] at h
          cases h
        · rw [if_neg h2] at h ⊢
          by_cases h3 : env.user_has_role = true
          · rw [if_pos h3] at h
            cases h
          · rw [if_neg h3] at h ⊢
            by_cases h4 : (!env.can_manage_roles) = true
            · rw [if_pos h4] at h
              cases h
            · rw [if_neg h4] at h ⊢
              by_cases h5 : (!env.role_position_ok) = true
              · rw [if_pos h5] at h
                cases h
              · rw [if_neg h5] at h ⊢
                by_cases h6 : env.grant_ok = true
                · rw [if_pos h6] at h
                  by_cases h7 : item.is_one_time_buy = true
                  · rw [if_pos h7] at h
                    cases h
                  · rw [if_neg h7] at h
                    cases h
                · rw [if_neg h6] at h ⊢
                  constructor
                  · intro w
                    by_cases hw : w = u
                    · subst hw
                      rw [balanceOf_add_coins_self, balanceOf_add_coins_self]
                      ring
                    · rw [balanceOf_add_coins_other _ _ hw, balanceOf_add_coins_other _ _ hw]
                  · rw [add_coins_items, add_coins_items]

/-- Claim C4 (witness): buyer 1 holds 50; purchasing the 30-coin item
with a failing grant refunds exactly, and the item table is unchanged. -/
theorem purchase_refund_exact_witness :
    balanceOf (shop_buy (DB.mk [(1, 50)] [ShopItem.mk 0 7 "Hat" 30 99 none false none] 1)
        envGrantFail 7 "Hat" 1).2.users 1 =
      balanceOf (DB.mk [(1, 50)] [ShopItem.mk 0 7 "Hat" 30 99 none false none] 1).users 1 ∧
    (shop_buy (DB.mk [(1, 50)] [ShopItem.mk 0 7 "Hat" 30 99 none false none] 1)
        envGrantFail 7 "Hat" 1).2.items =
      (DB.mk [(1, 50)] [ShopItem.mk 0 7 "Hat" 30 99 none false none] 1).items :=
  have h := purchase_refund_exact
    (DB.mk [(1, 50)] [ShopItem.mk 0 7 "Hat" 30 99 none false none] 1)
    envGrantFail 7 "Hat" 1 (by decide)
  ⟨h.1 1, h.2⟩

/-- Claim C6 (counterexample): a unique item already claimed by user 2
and a buyer with balance 0 < cost 30: the item exists and the buyer
cannot afford it, yet the result is `AlreadyClaimed`, not
`InsufficientFunds` — the claimed check precedes the affordability
check. -/
theorem purchase_claimed_precedes_insufficient :
    balanceOf (DB.mk [] [ShopItem.mk 0 3 "Relic" 30 9 none true (some 2)] 1).users 5 < 30 ∧
    get_shop_item (DB.mk [] [ShopItem.mk 0 3 "Relic" 30 9 none true (some 2)] 1) 3 "Relic" =
      some (ShopItem.mk 0 3 "Relic" 30 9 none true (some 2)) ∧
    (shop_buy (DB.mk [] [ShopItem.mk 0 3 "Relic" 30 9 none true (some 2)] 1)
        envAll 3 "Relic" 5).1 = BuyOutcome.alreadyClaimed ∧
    ¬ (shop_buy (DB.mk [] [ShopItem.mk 0 3 "Relic" 30 9 none true (some 2)] 1)
        envAll 3 "Relic" 5).1 = BuyOutcome.insufficientFunds := by
  decide

/-- Claim C6 (amended: the insufficient-funds outcome additionally
requires that the item is not an already-claimed unique item, since that
check comes first): an absent item yields `ItemNotFound` with the store
exactly unchanged; an existing, not-claimed item the buyer cannot afford
yields `InsufficientFunds` with no item change and no balance change. -/
theorem purchase_precheck_failures (s : DB) (env : BuyEnv) (g : Nat) (n : String) (u : Nat) :
    (get_shop_item s g n = none → shop_buy s env g n u = (BuyOutcome.itemNotFound, s)) ∧
    (∀ item, get_shop_item s g n = some item →
      (item.is_one_time_buy && optTruthy item.purchased_by_user_id) = false →
      balanceOf s.users u < item.cost →
      (shop_buy s env g n u).1 = BuyOutcome.insufficientFunds ∧
      (shop_buy s env g n u).2.items = s.items ∧
      ∀ w, balanceOf (shop_buy s env g n u).2.users w = balanceOf s.users w) := by
  constructor
  · intro hit
    exact shop_buy_none_eq s env g n u hit
  · intro item hit hb hc
    rw [shop_buy_open_eq s env g n u item hit hb]
    rw [if_pos hc]
    exact ⟨rfl, rfl, fun w => rfl⟩

/-- Claim C6 (witness): buyer 4 (absent, so balance 0) cannot afford the
30-coin item "Orb": the purchase fails with `InsufficientFunds` and
mutates no item and no balance. -/
theorem purchase_precheck_failures_witness :
    (shop_buy (DB.mk [] [ShopItem.mk 0 2 "Orb" 30 9 none false none] 1)
        envAll 2 "Orb" 4).1 = BuyOutcome.insufficientFunds ∧
    (shop_buy (DB.mk [] [ShopItem.mk 0 2 "Orb" 30 9 none false none] 1)
        envAll 2 "Orb" 4).2.items =
      (DB.mk [] [ShopItem.mk 0 2 "Orb" 30 9 none false none] 1).items ∧
    balanceOf (shop_buy (DB.mk [] [ShopItem.mk 0 2 "Orb" 30 9 none false none] 1)
        envAll 2 "Orb" 4).2.users 4 =
      balanceOf (DB.mk [] [ShopItem.mk 0 2 "Orb" 30 9 none false none] 1).users 4 :=
  have h := (purchase_precheck_failures (DB.mk [] [ShopItem.mk 0 2 "Orb" 30 9 none false none] 1)
      envAll 2 "Orb" 4).2
    (ShopItem.mk 0 2 "Orb" 30 9 none false none) (by decide) (by decide) (by decide)
  ⟨h.1, h.2.1, h.2.2 4⟩

/-- Claim C7: `add_shop_item` returns `false` and creates nothing when a
row with the same `(guildId, name)` exists, and otherwise creates the
item with `purchasedBy` unset and returns `true`; the same name in two
different guilds both succeed, while the same name twice in one guild
fails the second time. -/
theorem add_shop_item_guild_scoped_unique (s : DB) (g g₂ : Nat) (n : String)
    (c c₂ : Int) (r r₂ : Nat) (i i₂ : Option String) (o o₂ : Bool) :
    (hasItem s.items g n = true → add_shop_item s g n c r i o = (false, s)) ∧
    (hasItem s.items g n = false →
      (add_shop_item s g n c r i o).1 = true ∧
      (add_shop_item s g n c r i o).2.items =
        s.items ++ [ShopItem.mk s.next_item_id g n c r i o none]) ∧
    (g ≠ g₂ → hasItem s.items g n = false → hasItem s.items g₂ n = false →
      (add_shop_item (add_shop_item s g n c r i o).2 g₂ n c₂ r₂ i₂ o₂).1 = true ∧
      (add_shop_item (add_shop_item s g n c r i o).2 g n c₂ r₂ i₂ o₂).1 = false) := by
  have hfalse : ∀ (t : DB) (g' : Nat) (c' : Int) (r' : Nat) (i' : Option String) (o' : Bool),
      hasItem t.items g' n = true → add_shop_item t g' n c' r' i' o' = (false, t) := by
    intro t g' c' r' i' o' h
    simp only [add_shop_item]
    rw [if_pos h]
  have htrue : ∀ (t : DB) (g' : Nat) (c' : Int) (r' : Nat) (i' : Option String) (o' : Bool),
      hasItem t.items g' n = false →
      (add_shop_item t g' n c' r' i' o').1 = true ∧
      (add_shop_item t g' n c' r' i' o').2.items =
        t.items ++ [ShopItem.mk t.next_item_id g' n c' r' i' o' none] := by
    intro t g' c' r' i' o' h
    simp only [add_shop_item]
    rw [if_neg (by simp [h])]
    exact ⟨rfl, rfl⟩
  refine ⟨fun h => hfalse s g c r i o h, fun h => htrue s g c r i o h, ?_⟩
  intro hgg h1 h2
  have e1 := (htrue s g c r i o h1).2
  constructor
  · refine ((htrue (add_shop_item s g n c r i o).2 g₂ c₂ r₂ i₂ o₂) ?_).1
    rw [e1]
    have h2' : s.items.any (fun it => it.guild_id == g₂ && it.name == n) = false := h2
    simp only [hasItem, List.any_append, List.any_cons, List.any_nil, h2']
    simp [hgg]
  · have hh : hasItem (add_shop_item s g n c r i o).2.items g n = true := by
      rw [e1]
      have h1' : s.items.any (fun it => it.guild_id == g && it.name == n) = false := h1
      simp only [hasItem, List.any_append, List.any_cons, List.any_nil, h1']
      simp
    rw [hfalse (add_shop_item s g n c r i o).2 g c₂ r₂ i₂ o₂ hh]

/-- Claim C7 (witness): on the empty store, adding "X" in guild 1 and
then "X" in guild 2 both succeed, while adding "X" in guild 1 again
fails. -/
theorem add_shop_item_guild_scoped_unique_witness :
    (add_shop_item (DB.mk [] [] 0) 1 "X" 3 9 none false).1 = true ∧
    (add_shop_item (add_shop_item (DB.mk [] [] 0) 1 "X" 3 9 none false).2
        2 "X" 4 9 none false).1 = true ∧
    (add_shop_item (add_shop_item (DB.mk [] [] 0) 1 "X" 3 9 none false).2
        1 "X" 4 9 none false).1 = false :=
  have h := add_shop_item_guild_scoped_unique (DB.mk [] [] 0) 1 2 "X" 3 4 9 9 none none
    false false
  have h3 := h.2.2 (by decide) (by decide) (by decide)
  ⟨(h.2.1 (by decide)).1, h3.1, h3.2⟩

end StarStream
